import Mathlib

set_option maxRecDepth 8192

/-!
Shallow embedding of `src/EITViewer.ts` (tsukumijima/EITViewer).

The program is a single-pass Presenter over decoded EIT/TOT tables emitted
by an external demultiplexer (`@chinachu/aribts`).  We embed the Presenter's
filtering and field-formatting logic as pure functions:

* `processEit` models the body of `tsStream.on('eit', ...)` (lines 83-163):
  the guard on an absent event list, the `table_id` acceptance check via
  `range(0x50, 0x60)`, the service-id filter, the EIT-type classification
  and filter, the per-event formatting loop, the event-id guards, and the
  final structured output.
* `processTot` models the body of `tsStream.on('tot', ...)` (lines 167-178).

External collaborators that are not part of this repository are modelled at
the granularity the specification fixes: the `TsDate` decoder as 16-bit
Modified Julian Day plus 24-bit BCD, `dayjs(...).local().format()` as an
ISO-8601 offset string render in the fixed Asia/Tokyo offset (+09:00), the
ARIB STD-B24 `TsChar` decoder as an opaque `TextVal.decoded` marker, and the
JavaScript builtins `parseInt` and `String.fromCharCode` by their ECMAScript
semantics (including coercion of non-numeric values through NaN).
-/

/-- A JavaScript number as it occurs in the embedded fragments: either `NaN`
(produced e.g. by `parseInt` on a non-numeric string, line 64/70, or by
`ToNumber` coercion inside `String.fromCharCode`, line 143) or an integer.
JavaScript `Array.includes` uses SameValueZero, under which `NaN` equals
`NaN`; `DecidableEq` gives exactly that behaviour. -/
inductive JsNum where
  | nan : JsNum
  | int : Int → JsNum
  deriving DecidableEq, Repr

/-- Model of the JavaScript builtin `parseInt(value)` as used at
`src/EITViewer.ts:64` and `:70`: skip leading spaces, an optional sign, then
the longest prefix of decimal digits; an empty digit prefix yields `NaN`.
(The `0x` hexadecimal form of `parseInt` is not modelled; the configuration
strings of interest are plain decimal or non-numeric.)  `parseInt` never
throws: a malformed entry silently becomes `NaN`. -/
def parseIntJSAux (sign : Int) (cs : List Char) : JsNum :=
  let ds := cs.takeWhile Char.isDigit
  if ds.isEmpty then JsNum.nan
  else JsNum.int (sign * ds.foldl (fun acc c => acc * 10 + ((c.toNat : Int) - 48)) 0)

/-- Model of `parseInt(value)` on a character list (see `parseIntJSAux`). -/
def parseIntJSChars (cs : List Char) : JsNum :=
  match cs.dropWhile (fun c => c = ' ') with
  | '-' :: rest => parseIntJSAux (-1) rest
  | '+' :: rest => parseIntJSAux 1 rest
  | rest => parseIntJSAux 1 rest

/-- Model of `parseInt(value)` (see `parseIntJSAux`). -/
def parseIntJS (s : String) : JsNum :=
  parseIntJSChars s.toList

/-- Model of the JavaScript `String.prototype.split(',')`: cut the character
sequence at every comma; an empty string yields the one-element list of the
empty entry, exactly as in JavaScript. -/
def splitComma : List Char → List (List Char)
  | [] => [[]]
  | c :: rest =>
    if c = ',' then [] :: splitComma rest
    else
      match splitComma rest with
      | entry :: entries => (c :: entry) :: entries
      | [] => [[c]]

/-- Model of `options.serviceIds.split(',').map(parseInt)` (lines 64 and 70):
the comma-separated allow-list string parsed entrywise with `parseInt`. -/
def parseIdList (s : String) : List JsNum :=
  (splitComma s.toList).map parseIntJSChars

/-- The `range` helper of `src/EITViewer.ts:18-20`:
`[...Array(Math.abs(s - t))].map((x, i) => Math.min(s, t) + i * a).filter(x => x < Math.max(s, t))`. -/
def range (s t a : Int) : List Int :=
  ((List.range (s - t).natAbs).map (fun i => min s t + (i : Int) * a)).filter
    (fun x => decide (x < max s t))

/-- The constant `UNKNOWN_START_TIME` (line 13): the 5-byte all-`0xFF` sentinel. -/
def UNKNOWN_START_TIME : List Nat := [0xFF, 0xFF, 0xFF, 0xFF, 0xFF]

/-- The constant `UNKNOWN_DURATION` (line 14): the 3-byte all-`0xFF` sentinel. -/
def UNKNOWN_DURATION : List Nat := [0xFF, 0xFF, 0xFF]

/-- One BCD byte: high nibble is the tens digit, low nibble the units digit. -/
def bcd (b : Nat) : Nat := (b / 16) * 10 + b % 16

/-- Modelled from the spec: the calendar-date part of the external `TsDate`
decoder.  The 16-bit Modified Julian Day is converted to year/month/day with
the standard MJD formula (ARIB STD-B10 Annex C), with every fractional
truncation (`| 0` in JavaScript) rendered as exact integer division toward
zero. -/
def mjdToCivil (mjd : Int) : Int × Int × Int :=
  let yq : Int := Int.tdiv (20 * mjd - 301564) 7305
  let yd : Int := Int.tdiv (yq * 1461) 4
  let mq : Int := Int.tdiv (10000 * (mjd - yd) - 149561000) 306001
  let md : Int := Int.tdiv (mq * 306001) 10000
  let d : Int := mjd - 14956 - yd - md
  let k : Int := if mq = 14 ∨ mq = 15 then 1 else 0
  (yq + k + 1900, mq - 1 - 12 * k, d)

/-- A decoded calendar date-time, the result of `new TsDate(buffer).decode()`. -/
structure CivilDateTime where
  year : Int
  month : Int
  day : Int
  hour : Nat
  minute : Nat
  second : Nat
  deriving DecidableEq, Repr

/-- Modelled from the spec: `new TsDate(buffer).decode()` on a 5-byte field —
16-bit Modified Julian Day in the first two bytes, then a 24-bit BCD
hour/minute/second triple. -/
def tsDateDecode (bs : List Nat) : CivilDateTime :=
  let mjd : Int := (bs.getD 0 0 : Int) * 256 + (bs.getD 1 0 : Int)
  match mjdToCivil mjd with
  | (y, m, d) =>
    { year := y, month := m, day := d,
      hour := bcd (bs.getD 2 0), minute := bcd (bs.getD 3 0),
      second := bcd (bs.getD 4 0) }

/-- Modelled from the spec: `new TsDate(buffer).decodeTime()` on a 3-byte
field — the 24-bit BCD hour/minute/second triple. -/
def tsDateDecodeTime (bs : List Nat) : Nat × Nat × Nat :=
  (bcd (bs.getD 0 0), bcd (bs.getD 1 0), bcd (bs.getD 2 0))

/-- Zero-pad a component to two digits, as `dayjs` `format()` does. -/
def pad2 (n : Int) : String :=
  if n < 10 then "0" ++ toString n else "" ++ toString n

/-- Modelled from the spec: `dayjs(date).local().format()` under the fixed
Asia/Tokyo civil offset (line 37 sets the timezone; UTC+9, no daylight
saving): an ISO-8601-style offset timestamp string `YYYY-MM-DDTHH:mm:ss+09:00`. -/
def formatTokyo (dt : CivilDateTime) : String :=
  toString dt.year ++ "-" ++ pad2 dt.month ++ "-" ++ pad2 dt.day ++ "T" ++
    pad2 (dt.hour : Int) ++ ":" ++ pad2 (dt.minute : Int) ++ ":" ++
    pad2 (dt.second : Int) ++ "+09:00"

/-- The formatted `start_time` of an event: `Infinity` (line 112) or the
timestamp string of line 114. -/
inductive TimeOut where
  | infinity : TimeOut
  | timestamp : String → TimeOut
  deriving DecidableEq, Repr

/-- The formatted `duration` of an event: `Infinity` (line 119) or total
seconds (line 122). -/
inductive DurOut where
  | infinity : DurOut
  | seconds : Nat → DurOut
  deriving DecidableEq, Repr

/-- A text field of a descriptor after formatting: either left as the raw
bytes (the code never touched it) or passed through the external ARIB
STD-B24 `TsChar` decoder (`new TsChar(raw).decode()`), which we keep opaque:
`decoded raw` marks exactly "the TsChar decoding of `raw`". -/
inductive TextVal where
  | raw : List Nat → TextVal
  | decoded : List Nat → TextVal
  deriving DecidableEq, Repr

/-- An item of an extended event descriptor as emitted by the demultiplexer. -/
structure ItemRecord where
  item_description_char : List Nat
  item_char : List Nat
  deriving DecidableEq, Repr

/-- A descriptor as emitted by the demultiplexer: `descriptor_tag` selects
the variant; optional fields are absent (`none`) when the variant does not
carry them (the JavaScript `'field' in descriptor` test). -/
structure DescriptorRecord where
  descriptor_tag : Int
  ISO_639_language_code : Option (List Nat)
  text_char : Option (List Nat)
  event_name_char : Option (List Nat)
  items : List ItemRecord
  deriving DecidableEq, Repr

/-- An item after the `case 0x4E` loop of lines 144-147. -/
structure FormattedItem where
  item_description_char : TextVal
  item_char : TextVal
  deriving DecidableEq, Repr

/-- A descriptor after the formatting loop of lines 125-150 (`_raw` deleted,
language code stringified, text fields decoded where the code decodes them). -/
structure FormattedDescriptor where
  descriptor_tag : Int
  ISO_639_language_code : Option String
  text_char : Option TextVal
  event_name_char : Option TextVal
  items : List FormattedItem
  deriving DecidableEq, Repr

/-- ECMAScript `ToUint16` as applied by `String.fromCharCode` to each
argument: `NaN` maps to `0`, an integer is taken modulo 2^16. -/
def toUint16 (n : JsNum) : Nat :=
  match n with
  | JsNum.nan => 0
  | JsNum.int i => (i % 65536).toNat

/-- Model of the JavaScript builtin `String.fromCharCode(...args)`: each
argument is coerced with `ToUint16` and turned into the character with that
code. -/
def fromCharCode (codes : List JsNum) : String :=
  String.mk (codes.map (fun c => Char.ofNat (toUint16 c)))

/-- Spreading a byte buffer (`...buffer`, line 130): its byte values. -/
def spreadBytes (bs : List Nat) : List JsNum :=
  bs.map (fun b => JsNum.int (b : Int))

/-- ECMAScript `ToNumber` of a one-character string, as hit when a string is
spread into `String.fromCharCode` (line 143 after line 130 already replaced
the buffer by a string): a digit character is that digit, whitespace is `0`,
anything else is `NaN`. -/
def charToNumJS (c : Char) : JsNum :=
  if c.isDigit then JsNum.int ((c.toNat : Int) - 48)
  else if c = ' ' ∨ c = '\t' ∨ c = '\n' then JsNum.int 0
  else JsNum.nan

/-- Spreading a string (`...str`): its characters, each later coerced with
`ToNumber`. -/
def spreadStr (s : String) : List JsNum :=
  s.toList.map charToNumJS

/-- The descriptor formatting of lines 125-150, in source order: delete
`_raw`; if `ISO_639_language_code` is present, replace it by
`String.fromCharCode(...bytes)` (line 130); if `text_char` is present,
decode it with `TsChar` (line 134); then by `descriptor_tag`: `0x4D` decodes
`event_name_char` (line 139); `0x4E` applies `String.fromCharCode` a second
time — now to the spread of the string produced at line 130 — (line 143) and
decodes every item's two text fields (lines 144-147). -/
def formatDescriptor (d : DescriptorRecord) : FormattedDescriptor :=
  let lang1 : Option String :=
    d.ISO_639_language_code.map (fun bs => fromCharCode (spreadBytes bs))
  let base : FormattedDescriptor :=
    { descriptor_tag := d.descriptor_tag
      ISO_639_language_code := lang1
      text_char := d.text_char.map TextVal.decoded
      event_name_char := d.event_name_char.map TextVal.raw
      items := d.items.map (fun it =>
        { item_description_char := TextVal.raw it.item_description_char
          item_char := TextVal.raw it.item_char }) }
  if d.descriptor_tag = 0x4D then
    { base with event_name_char := d.event_name_char.map TextVal.decoded }
  else if d.descriptor_tag = 0x4E then
    { base with
      ISO_639_language_code := lang1.map (fun s => fromCharCode (spreadStr s))
      items := d.items.map (fun it =>
        { item_description_char := TextVal.decoded it.item_description_char
          item_char := TextVal.decoded it.item_char }) }
  else base

/-- An event as emitted by the demultiplexer: raw 5-byte `start_time`, raw
3-byte `duration`, raw descriptors. -/
structure EventRecord where
  event_id : Int
  start_time : List Nat
  duration : List Nat
  descriptors : List DescriptorRecord
  deriving DecidableEq, Repr

/-- An event after the formatting loop of lines 105-151. -/
structure FormattedEvent where
  event_id : Int
  start_time : TimeOut
  duration : DurOut
  descriptors : List FormattedDescriptor
  deriving DecidableEq, Repr

/-- The per-event formatting of lines 110-150: `start_time` becomes
`Infinity` exactly when the raw bytes equal `UNKNOWN_START_TIME`
(`Buffer.compare === 0`, i.e. byte-for-byte equality), otherwise the
decoded/rendered timestamp; `duration` becomes `Infinity` exactly when the
raw bytes equal `UNKNOWN_DURATION`, otherwise
`hours * 3600 + minutes * 60 + seconds` of the BCD triple; each descriptor
is formatted with `formatDescriptor`. -/
def formatEvent (e : EventRecord) : FormattedEvent :=
  { event_id := e.event_id
    start_time :=
      if e.start_time = UNKNOWN_START_TIME then TimeOut.infinity
      else TimeOut.timestamp (formatTokyo (tsDateDecode e.start_time))
    duration :=
      if e.duration = UNKNOWN_DURATION then DurOut.infinity
      else
        match tsDateDecodeTime e.duration with
        | (h, m, s) => DurOut.seconds (h * 3600 + m * 60 + s)
    descriptors := e.descriptors.map formatDescriptor }

/-- The filter configuration fixed at startup (lines 56-71): the
`--eit-types`, `--service-ids` and `--event-ids` allow-lists; an absent
option leaves the corresponding list empty. -/
structure Config where
  filterEitTypes : List String
  filterServiceIds : List JsNum
  filterEventIds : List JsNum
  deriving DecidableEq, Repr

/-- An EIT structure as delivered to the `'eit'` handler: `events` is `none`
when the demultiplexer delivered a checksum-mismatch artifact with no event
list (`eit.events == null`, line 86). -/
structure EitRecord where
  table_id : Int
  service_id : Int
  section_number : Int
  events : Option (List EventRecord)
  deriving DecidableEq, Repr

/-- The printed EIT block: the banner carries the classified type and the
`service_id` (line 159); the structured dump carries the formatted record
with `_raw` removed (lines 102-103, 161). -/
structure EitOutput where
  table_id : Int
  service_id : Int
  section_number : Int
  eitType : String
  events : List FormattedEvent
  deriving DecidableEq, Repr

/-- The rejection test of line 89:
`!(range(0x50, 0x60).includes(eit.table_id)) && eit.table_id !== 0x4E`. -/
def rejectTableId (tid : Int) : Bool :=
  !((range 0x50 0x60 1).contains tid) && tid != 0x4E

/-- The service-id skip test of line 92:
`filterServiceIds.length > 0 && filterServiceIds.includes(eit.service_id) === false`. -/
def eitSkipService (cfg : Config) (sid : Int) : Bool :=
  decide (cfg.filterServiceIds.length > 0) &&
    !(cfg.filterServiceIds.contains (JsNum.int sid))

/-- The classification of lines 95-98: `'schedule'` by default, overridden
for `table_id === 0x4E` by `'present'` when `section_number === 0`, else
`'following'`. -/
def eitTypeOf (eit : EitRecord) : String :=
  if eit.table_id = 0x4E then
    (if eit.section_number = 0 then "present" else "following")
  else "schedule"

/-- The type skip test of line 99:
`filterEitTypes.length > 0 && filterEitTypes.includes(eitType) === false`. -/
def eitSkipType (cfg : Config) (t : String) : Bool :=
  decide (cfg.filterEitTypes.length > 0) && !(cfg.filterEitTypes.contains t)

/-- The `isTargetEventDetected` accumulation of lines 104-108: the flag ends
up true iff some event's `event_id` is in a non-empty `filterEventIds`. -/
def isTargetEventDetected (cfg : Config) (events : List EventRecord) : Bool :=
  events.any (fun e =>
    decide (cfg.filterEventIds.length > 0) &&
      cfg.filterEventIds.contains (JsNum.int e.event_id))

/-- The body of `tsStream.on('eit', ...)` (lines 83-163), in source order:
return on an absent event list (line 86); return on a non-self-stream
`table_id` (line 89); return on a service-id mismatch (line 92); classify
the EIT type (lines 95-98) and return on a type mismatch (line 99); format
every event (lines 102-151); return when an event-id allow-list is set but
the event list is empty (line 154) or no event matched (line 157);
otherwise emit the banner data and the formatted record (lines 159-162). -/
def processEit (cfg : Config) (eit : EitRecord) : Option EitOutput :=
  match eit.events with
  | none => none
  | some events =>
    if rejectTableId eit.table_id then none
    else if eitSkipService cfg eit.service_id then none
    else
      let eitType := eitTypeOf eit
      if eitSkipType cfg eitType then none
      else
        let formattedEvents := events.map formatEvent
        let detected := isTargetEventDetected cfg events
        if decide (cfg.filterEventIds.length > 0) && decide (events.length = 0) then none
        else if decide (cfg.filterEventIds.length > 0) && !detected then none
        else some
          { table_id := eit.table_id
            service_id := eit.service_id
            section_number := eit.section_number
            eitType := eitType
            events := formattedEvents }

/-- A TOT structure as delivered to the `'tot'` handler: the raw 5-byte
`JST_time` field. -/
structure TotRecord where
  JST_time : List Nat
  deriving DecidableEq, Repr

/-- The printed TOT block (lines 174-177): the formatted record with
`JST_time` decoded and rendered. -/
structure TotOutput where
  JST_time : String
  deriving DecidableEq, Repr

/-- The body of `tsStream.on('tot', ...)` (lines 167-178): unconditionally
decode `JST_time` with the same `TsDate` date-time decoder used for
`start_time` (line 172) and emit; no filter is consulted. -/
def processTot (tot : TotRecord) : TotOutput :=
  { JST_time := formatTokyo (tsDateDecode tot.JST_time) }

/-- An empty filter configuration: no `--eit-types`, `--service-ids` or
`--event-ids` option given. -/
def cfgEmpty : Config := { filterEitTypes := [], filterServiceIds := [], filterEventIds := [] }

/-- A table whose `table_id` (0x4F) is neither in [0x50, 0x60) nor 0x4E. -/
def eitBadTid : EitRecord :=
  { table_id := 0x4F, service_id := 1, section_number := 0, events := some [] }

/-- The configuration of the spec's `--eit-types present` scenario. -/
def cfgPresent : Config :=
  { filterEitTypes := ["present"], filterServiceIds := [], filterEventIds := [] }

/-- An EIT[p/f] table with `section_number = 1`, classified `following`. -/
def eitFollowing : EitRecord :=
  { table_id := 0x4E, service_id := 1, section_number := 1, events := some [] }

/-- An event with the ARIB sample start time (MJD 0xC079, BCD 12:45:00) and a
BCD duration of 1h30m0s. -/
def evMjdSample : EventRecord :=
  { event_id := 5, start_time := [0xC0, 0x79, 0x12, 0x45, 0x00],
    duration := [0x01, 0x30, 0x00], descriptors := [] }

/-- An event with `event_id = 200` and unknown start time and duration. -/
def ev200 : EventRecord :=
  { event_id := 200, start_time := [0xFF, 0xFF, 0xFF, 0xFF, 0xFF],
    duration := [0xFF, 0xFF, 0xFF], descriptors := [] }

/-- An event with `event_id = 100` and unknown start time and duration. -/
def ev100 : EventRecord :=
  { event_id := 100, start_time := [0xFF, 0xFF, 0xFF, 0xFF, 0xFF],
    duration := [0xFF, 0xFF, 0xFF], descriptors := [] }

/-- The configuration of the spec's `--event-ids 100` scenario. -/
def cfgEventIds100 : Config :=
  { filterEitTypes := [], filterServiceIds := [], filterEventIds := [JsNum.int 100] }

/-- A schedule EIT carrying the events `ev200` and `ev100`. -/
def eitTwoEvents : EitRecord :=
  { table_id := 0x50, service_id := 1, section_number := 0, events := some [ev200, ev100] }

/-- The configuration of the spec's `--service-ids 1024,2048` scenario. -/
def cfgServiceIds : Config :=
  { filterEitTypes := [], filterServiceIds := [JsNum.int 1024, JsNum.int 2048],
    filterEventIds := [] }

/-- A schedule EIT with `service_id = 4096`. -/
def eitSid4096 : EitRecord :=
  { table_id := 0x50, service_id := 4096, section_number := 0, events := some [] }

/-- A schedule EIT with an empty (but present) event list. -/
def eitEmptyEvents : EitRecord :=
  { table_id := 0x50, service_id := 1, section_number := 0, events := some [] }

theorem range_fifty_sixty :
    range 0x50 0x60 1 = [80, 81, 82, 83, 84, 85, 86, 87, 88, 89, 90, 91, 92, 93, 94, 95] := by
  decide

theorem contains_range_iff (tid : Int) :
    ((range 0x50 0x60 1).contains tid = true) ↔ (0x50 ≤ tid ∧ tid < 0x60) := by
  rw [range_fifty_sixty]
  simp only [List.contains, List.elem_eq_mem, decide_eq_true_iff, List.mem_cons,
    List.not_mem_nil, or_false]
  omega

theorem rejectTableId_eq_false_iff (tid : Int) :
    rejectTableId tid = false ↔ ((0x50 ≤ tid ∧ tid < 0x60) ∨ tid = 0x4E) := by
  have h := contains_range_iff tid
  simp only [rejectTableId, Bool.and_eq_false_iff, Bool.not_eq_false', bne_eq_false_iff_eq]
  constructor
  · rintro (hc | he)
    · exact Or.inl (h.mp hc)
    · exact Or.inr he
  · rintro (hi | he)
    · exact Or.inl (h.mpr hi)
    · exact Or.inr he

theorem processEit_none_of_reject (cfg : Config) (eit : EitRecord)
    (h : rejectTableId eit.table_id = true) : processEit cfg eit = none := by
  unfold processEit
  cases eit.events with
  | none => rfl
  | some events => simp [h]

/-- Claim C1: a table whose `table_id` lies outside the half-open range
[0x50, 0x60) and differs from 0x4E produces no output; the rejection test of
line 89 passes (is `false`) exactly for `table_id` in [0x50, 0x60) or equal
to 0x4E, so such tables are accepted for further processing. -/
theorem c1_table_id_gate :
    (∀ tid : Int,
      rejectTableId tid = false ↔ ((0x50 ≤ tid ∧ tid < 0x60) ∨ tid = 0x4E)) ∧
    (∀ (cfg : Config) (eit : EitRecord),
      ¬ ((0x50 ≤ eit.table_id ∧ eit.table_id < 0x60) ∨ eit.table_id = 0x4E) →
      processEit cfg eit = none) := by
  refine ⟨rejectTableId_eq_false_iff, ?_⟩
  intro cfg eit h
  apply processEit_none_of_reject
  cases hr : rejectTableId eit.table_id with
  | true => rfl
  | false => exact absurd ((rejectTableId_eq_false_iff _).mp hr) h

/-- Witness for C1: the concrete table with `table_id = 0x4F` is dropped. -/
theorem c1_table_id_gate_witness : processEit cfgEmpty eitBadTid = none :=
  c1_table_id_gate.2 cfgEmpty eitBadTid (by decide)

/-- Claim C2: classification — `table_id = 0x4E` with `section_number = 0`
is `present`, with `section_number ≠ 0` is `following`, and any `table_id`
in [0x50, 0x60) is `schedule`; with a configured type allow-list, a record
whose classified type is not in the list produces no output, while a type in
the list never trips the type filter. -/
theorem c2_classification_and_type_filter :
    (∀ eit : EitRecord, eit.table_id = 0x4E → eit.section_number = 0 →
      eitTypeOf eit = "present") ∧
    (∀ eit : EitRecord, eit.table_id = 0x4E → eit.section_number ≠ 0 →
      eitTypeOf eit = "following") ∧
    (∀ eit : EitRecord, 0x50 ≤ eit.table_id → eit.table_id < 0x60 →
      eitTypeOf eit = "schedule") ∧
    (∀ (cfg : Config) (eit : EitRecord), cfg.filterEitTypes ≠ [] →
      cfg.filterEitTypes.contains (eitTypeOf eit) = false →
      processEit cfg eit = none) ∧
    (∀ (cfg : Config) (t : String), cfg.filterEitTypes.contains t = true →
      eitSkipType cfg t = false) := by
  refine ⟨?_, ?_, ?_, ?_, ?_⟩
  · intro eit h1 h2
    simp [eitTypeOf, h1, h2]
  · intro eit h1 h2
    simp [eitTypeOf, h1, h2]
  · intro eit h1 h2
    have hne : eit.table_id ≠ 0x4E := by omega
    simp [eitTypeOf, hne]
  · intro cfg eit hne hc
    have hl : decide (cfg.filterEitTypes.length > 0) = true :=
      decide_eq_true (List.length_pos.mpr hne)
    have hskip : eitSkipType cfg (eitTypeOf eit) = true := by
      simp only [List.contains, List.elem_eq_mem, decide_eq_false_iff_not] at hc
      simp [eitSkipType, hl, hc]
    unfold processEit
    cases hev : eit.events with
    | none => rfl
    | some events =>
      cases hr : rejectTableId eit.table_id with
      | true => simp
      | false =>
        cases hs : eitSkipService cfg eit.service_id with
        | true => simp [hs]
        | false => simp [hs, hskip]
  · intro cfg t h
    simp only [List.contains, List.elem_eq_mem, decide_eq_true_eq] at h
    simp [eitSkipType, h]

/-- Witness for C2: with `--eit-types present`, the concrete `following`
record (table 0x4E, section 1) is not printed. -/
theorem c2_classification_witness : processEit cfgPresent eitFollowing = none :=
  c2_classification_and_type_filter.2.2.2.1 cfgPresent eitFollowing
    (by decide) (by decide)

/-- Claim C6: a table whose event list is absent produces no output, for
every value of every other field and every configuration; the handler
returns before any field decoding. -/
theorem c6_absent_event_list :
    ∀ (cfg : Config) (tid sid sn : Int),
      processEit cfg
        { table_id := tid, service_id := sid, section_number := sn, events := none } =
        none := by
  intro cfg tid sid sn
  rfl

/-- Claim C7: with a configured service-id allow-list, an EIT whose
`service_id` is not in the list produces no output; a TOT is emitted
unconditionally (the `'tot'` handler consults no filter at all), with
`JST_time` decoded by the same `TsDate` date-time decoder used for
`start_time` and rendered as an offset timestamp string. -/
theorem c7_service_filter_and_tot :
    (∀ (cfg : Config) (eit : EitRecord), cfg.filterServiceIds ≠ [] →
      cfg.filterServiceIds.contains (JsNum.int eit.service_id) = false →
      processEit cfg eit = none) ∧
    (∀ tot : TotRecord,
      processTot tot = { JST_time := formatTokyo (tsDateDecode tot.JST_time) }) ∧
    (∀ (tot : TotRecord) (e : EventRecord),
      e.start_time = tot.JST_time → e.start_time ≠ UNKNOWN_START_TIME →
      (formatEvent e).start_time = TimeOut.timestamp (processTot tot).JST_time) := by
  refine ⟨?_, ?_, ?_⟩
  · intro cfg eit hne hc
    have hl : decide (cfg.filterServiceIds.length > 0) = true :=
      decide_eq_true (List.length_pos.mpr hne)
    have hskip : eitSkipService cfg eit.service_id = true := by
      simp only [List.contains, List.elem_eq_mem, decide_eq_false_iff_not] at hc
      simp [eitSkipService, hl, hc]
    unfold processEit
    cases hev : eit.events with
    | none => rfl
    | some events =>
      cases hr : rejectTableId eit.table_id with
      | true => simp
      | false => simp [hskip]
  · intro tot
    rfl
  · intro tot e h1 h2
    rw [h1] at h2
    simp only [formatEvent, processTot, h1, if_neg h2]

/-- Witness for C7: with `--service-ids 1024,2048`, the concrete record with
`service_id = 4096` is not printed. -/
theorem c7_service_filter_witness : processEit cfgServiceIds eitSid4096 = none :=
  c7_service_filter_and_tot.1 cfgServiceIds eitSid4096 (by decide) (by decide)

/-- Claim C10: with no event-id allow-list configured, a record that passes
the event-list-presence, table-id, service-id and type checks and whose
event list is empty is still printed in full, its events field being the
empty sequence; the empty-event-list skip of line 154 only fires when
`filterEventIds` is non-empty. -/
theorem c10_empty_events_printed :
    ∀ (cfg : Config) (eit : EitRecord),
      cfg.filterEventIds = [] → eit.events = some [] →
      rejectTableId eit.table_id = false →
      eitSkipService cfg eit.service_id = false →
      eitSkipType cfg (eitTypeOf eit) = false →
      processEit cfg eit = some
        { table_id := eit.table_id, service_id := eit.service_id,
          section_number := eit.section_number, eitType := eitTypeOf eit,
          events := [] } := by
  intro cfg eit hf hev hr hs ht
  unfold processEit
  rw [hev]
  simp [hr, hs, ht, hf]

/-- Witness for C10: the concrete empty-event-list schedule record is
printed with an empty events field under the empty configuration. -/
theorem c10_empty_events_witness :
    processEit cfgEmpty eitEmptyEvents = some
      { table_id := 0x50, service_id := 1, section_number := 0,
        eitType := "schedule", events := [] } :=
  c10_empty_events_printed cfgEmpty eitEmptyEvents rfl rfl
    (by decide) (by decide) (by decide)

theorem processEit_events_eq (cfg : Config) (eit : EitRecord) (out : EitOutput)
    (h : processEit cfg eit = some out) :
    ∃ events, eit.events = some events ∧ out.events = events.map formatEvent := by
  unfold processEit at h
  cases hev : eit.events with
  | none => rw [hev] at h; exact Option.noConfusion h
  | some events =>
    rw [hev] at h
    refine ⟨events, rfl, ?_⟩
    simp only [] at h
    split at h
    · exact Option.noConfusion h
    · split at h
      · exact Option.noConfusion h
      · split at h
        · exact Option.noConfusion h
        · split at h
          · exact Option.noConfusion h
          · split at h
            · exact Option.noConfusion h
            · rw [← Option.some.inj h]

/-- Claim C3: in a printed record each event's `start_time` is rendered as
positive infinity exactly when its raw bytes are the 5-byte `FF FF FF FF FF`
sentinel, and otherwise as the Asia/Tokyo (+09:00) ISO-8601-style timestamp
of the 16-bit-MJD + 24-bit-BCD decoding; concretely, raw bytes
`C0 79 12 45 00` decode to 1993-10-13 12:45:00 and render as
`1993-10-13T12:45:00+09:00`. -/
theorem c3_start_time_rendering :
    (∀ e : EventRecord, e.start_time = UNKNOWN_START_TIME →
      (formatEvent e).start_time = TimeOut.infinity) ∧
    (∀ e : EventRecord, e.start_time ≠ UNKNOWN_START_TIME →
      (formatEvent e).start_time =
        TimeOut.timestamp (formatTokyo (tsDateDecode e.start_time))) ∧
    (tsDateDecode [0xC0, 0x79, 0x12, 0x45, 0x00] =
      { year := 1993, month := 10, day := 13, hour := 12, minute := 45, second := 0 }) ∧
    (formatTokyo { year := 1993, month := 10, day := 13, hour := 12, minute := 45, second := 0 } =
      "1993-10-13T12:45:00+09:00") ∧
    (∀ (cfg : Config) (eit : EitRecord) (out : EitOutput),
      processEit cfg eit = some out →
      ∃ events, eit.events = some events ∧ out.events = events.map formatEvent) := by
  refine ⟨?_, ?_, ?_, ?_, processEit_events_eq⟩
  · intro e h
    simp [formatEvent, h]
  · intro e h
    simp [formatEvent, h]
  · decide
  · decide

/-- Witness for C3: the concrete event with the ARIB sample start time is
rendered through the decoder, and the sentinel event as infinity. -/
theorem c3_start_time_witness :
    (formatEvent evMjdSample).start_time =
      TimeOut.timestamp (formatTokyo (tsDateDecode evMjdSample.start_time)) ∧
    (formatEvent ev100).start_time = TimeOut.infinity :=
  ⟨c3_start_time_rendering.2.1 evMjdSample (by decide),
   c3_start_time_rendering.1 ev100 (by decide)⟩

/-- Claim C4: in a printed record each event's `duration` is rendered as
positive infinity exactly when its raw bytes are the 3-byte `FF FF FF`
sentinel, and otherwise as `hours * 3600 + minutes * 60 + seconds` of the
BCD triple; raw BCD bytes `01 30 00` render as `5400`. -/
theorem c4_duration_rendering :
    (∀ e : EventRecord, e.duration = UNKNOWN_DURATION →
      (formatEvent e).duration = DurOut.infinity) ∧
    (∀ e : EventRecord, e.duration ≠ UNKNOWN_DURATION →
      (formatEvent e).duration = DurOut.seconds
        (bcd (e.duration.getD 0 0) * 3600 + bcd (e.duration.getD 1 0) * 60 +
          bcd (e.duration.getD 2 0))) ∧
    (∀ e : EventRecord, e.duration = [0x01, 0x30, 0x00] →
      (formatEvent e).duration = DurOut.seconds 5400) ∧
    (∀ (cfg : Config) (eit : EitRecord) (out : EitOutput),
      processEit cfg eit = some out →
      ∃ events, eit.events = some events ∧ out.events = events.map formatEvent) := by
  refine ⟨?_, ?_, ?_, processEit_events_eq⟩
  · intro e h
    simp [formatEvent, h]
  · intro e h
    simp [formatEvent, tsDateDecodeTime, h]
  · intro e h
    have hne : e.duration ≠ UNKNOWN_DURATION := by
      rw [h]; decide
    simp [formatEvent, tsDateDecodeTime, hne, h]
    decide

/-- Witness for C4: the concrete event with BCD duration `01 30 00` renders
as 5400 seconds, and the sentinel event as infinity. -/
theorem c4_duration_witness :
    (formatEvent evMjdSample).duration = DurOut.seconds 5400 ∧
    (formatEvent ev100).duration = DurOut.infinity :=
  ⟨c4_duration_rendering.2.2.1 evMjdSample rfl,
   c4_duration_rendering.1 ev100 (by decide)⟩

/-- Claim C5: with a configured event-id allow-list, a record none of whose
events' ids are in the list — including a record with an empty event list —
produces no output; a record in which at least one event's id is in the list
and which passes the earlier checks is printed in full, every event
(including non-matching ones) retained. -/
theorem c5_event_id_filter :
    ∀ (cfg : Config) (eit : EitRecord) (events : List EventRecord),
      eit.events = some events → cfg.filterEventIds ≠ [] →
      ((∀ e ∈ events, cfg.filterEventIds.contains (JsNum.int e.event_id) = false) →
        processEit cfg eit = none) ∧
      ((∃ e ∈ events, cfg.filterEventIds.contains (JsNum.int e.event_id) = true) →
        rejectTableId eit.table_id = false →
        eitSkipService cfg eit.service_id = false →
        eitSkipType cfg (eitTypeOf eit) = false →
        processEit cfg eit = some
          { table_id := eit.table_id, service_id := eit.service_id,
            section_number := eit.section_number, eitType := eitTypeOf eit,
            events := events.map formatEvent }) := by
  intro cfg eit events hev hne
  have hlen : decide (cfg.filterEventIds.length > 0) = true :=
    decide_eq_true (List.length_pos.mpr hne)
  constructor
  · intro hall
    have hdet : isTargetEventDetected cfg events = false := by
      simp only [isTargetEventDetected, List.any_eq_false]
      intro e he
      have hm := hall e he
      simp only [List.contains, List.elem_eq_mem, decide_eq_false_iff_not] at hm
      simp [hm]
    unfold processEit
    rw [hev]
    cases hr : rejectTableId eit.table_id with
    | true => simp
    | false =>
      cases hs : eitSkipService cfg eit.service_id with
      | true => simp [hs]
      | false =>
        cases ht : eitSkipType cfg (eitTypeOf eit) with
        | true => simp [ht]
        | false =>
          by_cases h0 : events.length = 0
          · simp [ht, hlen, h0]
          · simp [ht, hlen, h0, hdet]
  · intro hex hr hs ht
    have hdet : isTargetEventDetected cfg events = true := by
      obtain ⟨e, he, hc⟩ := hex
      simp only [List.contains, List.elem_eq_mem, decide_eq_true_eq] at hc
      simp only [isTargetEventDetected, List.any_eq_true]
      exact ⟨e, he, by simp [hlen, hc]⟩
    have h0 : ¬ (events.length = 0) := by
      obtain ⟨e, he, _⟩ := hex
      intro h0
      rw [List.length_eq_zero] at h0
      subst h0
      exact absurd he (List.not_mem_nil e)
    unfold processEit
    rw [hev]
    simp [hr, hs, ht, hlen, h0, hdet]

/-- Witness for C5: with `--event-ids 100`, a record whose events have ids
200 and 100 is printed in full with both events retained. -/
theorem c5_event_id_witness :
    processEit cfgEventIds100 eitTwoEvents = some
      { table_id := 0x50, service_id := 1, section_number := 0,
        eitType := eitTypeOf eitTwoEvents, events := [ev200, ev100].map formatEvent } :=
  (c5_event_id_filter cfgEventIds100 eitTwoEvents [ev200, ev100] rfl (by decide)).2
    (by decide) (by decide) (by decide) (by decide)

theorem contains_int_eq_false_of_all_nan (L : List JsNum)
    (h : ∀ x ∈ L, x = JsNum.nan) (n : Int) :
    L.contains (JsNum.int n) = false := by
  simp only [List.contains, List.elem_eq_mem, decide_eq_false_iff_not]
  intro hmem
  exact absurd (h _ hmem) (by simp)

theorem processEit_none_of_no_event_match (cfg : Config) (eit : EitRecord)
    (events : List EventRecord) (hev : eit.events = some events)
    (hne : cfg.filterEventIds ≠ [])
    (hall : ∀ e ∈ events, cfg.filterEventIds.contains (JsNum.int e.event_id) = false) :
    processEit cfg eit = none := by
  have hlen : decide (cfg.filterEventIds.length > 0) = true :=
    decide_eq_true (List.length_pos.mpr hne)
  have hdet : isTargetEventDetected cfg events = false := by
    simp only [isTargetEventDetected, List.any_eq_false]
    intro e he
    have hm := hall e he
    simp only [List.contains, List.elem_eq_mem, decide_eq_false_iff_not] at hm
    simp [hm]
  unfold processEit
  rw [hev]
  cases hr : rejectTableId eit.table_id with
  | true => simp
  | false =>
    cases hs : eitSkipService cfg eit.service_id with
    | true => simp [hs]
    | false =>
      cases ht : eitSkipType cfg (eitTypeOf eit) with
      | true => simp [ht]
      | false =>
        by_cases h0 : events.length = 0
        · simp [ht, hlen, h0]
        · simp [ht, hlen, h0, hdet]

/-- Counterexample to claim C8: `parseInt` never throws, so a non-numeric
entry in an allow-list does not stop the program — the entry silently
becomes `NaN` and processing proceeds.  With `--service-ids foo,1`, the
list parses to `[NaN, 1]` without any reported error, and a table with
`service_id = 1` is still processed and printed. -/
theorem c8_no_fail_fast_counterexample :
    parseIdList "foo,1" = [JsNum.nan, JsNum.int 1] ∧
    processEit
      { filterEitTypes := [], filterServiceIds := parseIdList "foo,1",
        filterEventIds := [] }
      { table_id := 0x50, service_id := 1, section_number := 0, events := some [] } =
      some { table_id := 0x50, service_id := 1, section_number := 0,
             eitType := "schedule", events := [] } := by
  constructor
  · decide
  · decide

/-- Claim C8 as amended: a non-numeric entry in the `--service-ids` or
`--event-ids` list is parsed to `NaN` with no reported error; the program
proceeds to process tables, and the `NaN` entry matches no record, so an
allow-list made up entirely of non-numeric entries filters out every EIT
record instead of failing. -/
theorem c8_nan_entries_match_nothing :
    ∀ (ss : List String) (eit : EitRecord), ss ≠ [] →
      (∀ s ∈ ss, parseIntJS s = JsNum.nan) →
      processEit
        { filterEitTypes := [], filterServiceIds := ss.map parseIntJS,
          filterEventIds := [] } eit = none ∧
      processEit
        { filterEitTypes := [], filterServiceIds := [],
          filterEventIds := ss.map parseIntJS } eit = none := by
  intro ss eit hne hnan
  have hallnan : ∀ x ∈ ss.map parseIntJS, x = JsNum.nan := by
    intro x hx
    obtain ⟨s, hs, rfl⟩ := List.mem_map.mp hx
    exact hnan s hs
  have hmapne : ss.map parseIntJS ≠ [] := by
    simp only [ne_eq, List.map_eq_nil_iff]
    exact hne
  have hlen : decide ((ss.map parseIntJS).length > 0) = true :=
    decide_eq_true (List.length_pos.mpr hmapne)
  constructor
  · have hskip :
        eitSkipService
          { filterEitTypes := [], filterServiceIds := ss.map parseIntJS,
            filterEventIds := [] } eit.service_id = true := by
      show (decide ((ss.map parseIntJS).length > 0) &&
        !((ss.map parseIntJS).contains (JsNum.int eit.service_id))) = true
      rw [hlen, contains_int_eq_false_of_all_nan _ hallnan eit.service_id]
      rfl
    unfold processEit
    cases hev : eit.events with
    | none => rfl
    | some events =>
      cases hr : rejectTableId eit.table_id with
      | true => simp
      | false => simp [hskip]
  · cases hev : eit.events with
    | none =>
      unfold processEit
      rw [hev]
    | some events =>
      apply processEit_none_of_no_event_match _ _ events hev
      · show ss.map parseIntJS ≠ []
        exact hmapne
      · intro e he
        exact contains_int_eq_false_of_all_nan _ hallnan e.event_id

/-- Witness for the amended C8: the all-non-numeric list `["foo"]` filters
out a concrete record instead of raising a configuration error. -/
theorem c8_nan_entries_witness :
    processEit
      { filterEitTypes := [], filterServiceIds := ["foo"].map parseIntJS,
        filterEventIds := [] } eitEmptyEvents = none :=
  (c8_nan_entries_match_nothing ["foo"] eitEmptyEvents (by decide) (by decide)).1

/-- Claim C9 is violated by the code (code bug): for an extended event
descriptor (`descriptor_tag = 0x4E`) the language code is converted by
`String.fromCharCode` twice — once at line 130, once again at line 143 on
the already-converted string — so the byte triple `4A 50 4E` is printed as
three NUL characters, not as `JPN`; a descriptor with any other tag carrying
the same bytes is printed as `JPN` (single conversion at line 130). -/
theorem c9_language_code_double_decode :
    (formatDescriptor
      { descriptor_tag := 0x4E, ISO_639_language_code := some [0x4A, 0x50, 0x4E],
        text_char := none, event_name_char := none,
        items := [] }).ISO_639_language_code =
      some (String.mk [Char.ofNat 0, Char.ofNat 0, Char.ofNat 0]) ∧
    String.mk [Char.ofNat 0, Char.ofNat 0, Char.ofNat 0] ≠ "JPN" ∧
    (formatDescriptor
      { descriptor_tag := 0x4D, ISO_639_language_code := some [0x4A, 0x50, 0x4E],
        text_char := none, event_name_char := some [0x21],
        items := [] }).ISO_639_language_code = some "JPN" := by
  refine ⟨?_, ?_, ?_⟩
  · decide
  · decide
  · decide
